import Mathlib

/-!
Verification of the potato-notebook vision system (src/main.py).

The development shallowly embeds the VisionSystem class: the coordinate
rescaler, the color table, the flagged-class test, the snapshot filename
generator (save_stone_image), the dedup-and-annotate per-frame loop
(process_frame), and the init/cleanup/main lifecycle.  External
collaborators (camera, YOLO model, OpenCV display) are modelled as
environment inputs: each loop iteration receives the camera read result,
the detection list the tracker reports, whether an exception is raised by
one of the OpenCV calls during the iteration and at which point, and
whether the stop key is pressed during that iteration.
-/

/-- Python int() applied to a rational: truncation toward zero
(floor for nonnegative values, ceiling for negative ones).
Used for the int(...) casts on line 94 of src/main.py. -/
def pyInt (q : ℚ) : ℤ := if 0 ≤ q then ⌊q⌋ else ⌈q⌉

/-- Lines 82-83 and 94 of src/main.py: scale_x = original_w / 640,
scale_y = original_h / 640, and the box corners are independently
multiplied by the scale factors and truncated with int().  No clamping
to the frame bounds is performed. -/
def rescaleBox (w h : ℕ) (box : ℚ × ℚ × ℚ × ℚ) : ℤ × ℤ × ℤ × ℤ :=
  let sx : ℚ := (w : ℚ) / 640
  let sy : ℚ := (h : ℚ) / 640
  (pyInt (box.1 * sx), pyInt (box.2.1 * sy), pyInt (box.2.2.1 * sx), pyInt (box.2.2.2 * sy))

/-- The self.colors dictionary of src/main.py lines 17-23 (BGR tuples). -/
def colors : List (String × (ℕ × ℕ × ℕ)) :=
  [("OK", (0, 255, 0)),
   ("PODRE", (255, 0, 0)),
   ("PEDRA", (0, 0, 255)),
   ("PEDRA-NA-BATATA", (0, 0, 255)),
   ("BATATA-COM-PEDRA", (0, 0, 255))]

/-- Line 97 of src/main.py: self.colors.get(label, (0, 255, 0)). -/
def colorsGet (label : String) : ℕ × ℕ × ℕ := (colors.lookup label).getD (0, 255, 0)

/-- Line 103 of src/main.py: the flagged-class test
label == PEDRA or label == PEDRA-NA-BATATA or label == BATATA-COM-PEDRA. -/
def flaggedB (label : String) : Bool :=
  label == "PEDRA" || label == "PEDRA-NA-BATATA" || label == "BATATA-COM-PEDRA"

/-- Two-digit zero-padded decimal rendering of a natural number below 100,
as produced by the %d, %m, %H, %M, %S fields of strftime on line 58 of
src/main.py. -/
def chars2 (n : ℕ) : List Char := [Nat.digitChar (n / 10), Nat.digitChar (n % 10)]

/-- Three-digit zero-padded decimal rendering of a natural number below
1000, as produced by the :03d format of the millisecond field on line 58
of src/main.py. -/
def chars3 (n : ℕ) : List Char :=
  [Nat.digitChar (n / 100), Nat.digitChar (n / 10 % 10), Nat.digitChar (n % 10)]

/-- Four-digit zero-padded decimal rendering of a natural number below
10000, as produced by the %Y field of strftime on line 58 of src/main.py. -/
def chars4 (n : ℕ) : List Char :=
  [Nat.digitChar (n / 1000), Nat.digitChar (n / 100 % 10), Nat.digitChar (n / 10 % 10),
   Nat.digitChar (n % 10)]

/-- Python format spec .2f on line 99 of src/main.py: the score times 100
is rounded to the nearest integer (ties to even, as Python rounds), then
rendered with two digits after the decimal point. -/
def fmt2 (q : ℚ) : String :=
  let r : ℚ := q * 100
  let f : ℤ := ⌊r⌋
  let n : ℤ :=
    if r - f < 1 / 2 then f
    else if 1 / 2 < r - f then f + 1
    else if f % 2 = 0 then f else f + 1
  (if n < 0 then "-" else "") ++ toString (n.natAbs / 100) ++ "." ++
    String.mk (chars2 (n.natAbs % 100))

/-- One tracked detection reported by model.track for the current frame
(lines 87-93 of src/main.py): box in 640x640 working coordinates, class
label (model.names already applied), confidence score, and track id. -/
structure Detection where
  box : ℚ × ℚ × ℚ × ℚ
  cls : String
  score : ℚ
  trackId : ℤ
deriving DecidableEq

/-- Line 99 of src/main.py: the f-string label followed by the score with
two decimal places. -/
def displayText (d : Detection) : String := d.cls ++ ": " ++ fmt2 d.score

/-- Observable action of one loop iteration on the annotated frame and the
snapshot sink: a rectangle drawn (line 100), a text label placed (line
101), or a snapshot-sink invocation (line 104).  The snapshot event
records the track id whose first flagged occurrence triggered it. -/
inductive Ev where
  | rect : (ℤ × ℤ × ℤ × ℤ) → (ℕ × ℕ × ℕ) → Ev
  | text : String → (ℤ × ℤ) → (ℕ × ℕ × ℕ) → Ev
  | snapshot : ℤ → Ev
deriving DecidableEq

/-- Test for the snapshot constructor of Ev. -/
def isSnap : Ev → Bool
  | Ev.snapshot _ => true
  | _ => false

/-- Lines 94-101 of src/main.py: the annotation performed for one
detection, a rectangle at the rescaled box and the class-and-score text
10 pixels above its top-left corner, both in the looked-up color. -/
def annEvents (w h : ℕ) (d : Detection) : List Ev :=
  let b := rescaleBox w h d.box
  [Ev.rect b (colorsGet d.cls), Ev.text (displayText d) (b.1, b.2.1 - 10) (colorsGet d.cls)]

/-- Lines 94-105 of src/main.py: processing of a single detection inside
the for loop.  Annotation always happens; then, if the label is flagged
and the track id is not yet in saved_stone_ids, the snapshot sink is
invoked and the id is added to the registry. -/
def processOne (w h : ℕ) (saved : Finset ℤ) (d : Detection) : Finset ℤ × List Ev :=
  if flaggedB d.cls ∧ d.trackId ∉ saved then
    (insert d.trackId saved, annEvents w h d ++ [Ev.snapshot d.trackId])
  else
    (saved, annEvents w h d)

/-- Line 93 of src/main.py: the for loop over the zipped detections,
threading saved_stone_ids and emitting the annotation and snapshot
events in iteration order. -/
def processDets (w h : ℕ) (saved : Finset ℤ) : List Detection → Finset ℤ × List Ev
  | [] => (saved, [])
  | d :: ds =>
    let p := processOne w h saved d
    let rest := processDets w h p.1 ds
    (rest.1, p.2 ++ rest.2)

/-- Where an exception, if any, interrupts one iteration of the while
loop of process_frame (lines 70-113 of src/main.py).  beforeDets models a
raise in camera.read, cv2.resize or model.track, before any detection is
processed; atDet i models a raise inside the OpenCV drawing calls while
processing detection number i, before that detection has had any effect;
atShow models a raise in cv2.imshow or cv2.waitKey, after every detection
was processed but before the stop key is polled. -/
inductive RaisePoint where
  | noRaise : RaisePoint
  | beforeDets : RaisePoint
  | atDet : ℕ → RaisePoint
  | atShow : RaisePoint
deriving DecidableEq

/-- Environment input consumed by one iteration of the while loop: the
camera read result ret (line 72), the original frame dimensions (line
77), the tracked detections, with none standing for results[0].boxes.id
being None (line 87), the exception injection point, and whether the q
key is pressed during this iteration (line 108). -/
structure Tick where
  ret : Bool
  w : ℕ
  h : ℕ
  dets : Option (List Detection)
  rp : RaisePoint
  stopKey : Bool
deriving DecidableEq

/-- Fallback tick used by positional list access in theorem statements. -/
def defaultTick : Tick := ⟨false, 0, 0, none, RaisePoint.noRaise, false⟩

/-- Result of one iteration of the while loop: the registry afterwards,
the events the iteration emitted, how many times model.track was called
(0 or 1), and whether the break on line 109 fired. -/
structure StepOut where
  saved : Finset ℤ
  events : List Ev
  detCalls : ℕ
  stop : Bool
deriving DecidableEq

/-- One iteration of the while loop of process_frame (lines 70-113 of
src/main.py).  A failed read hits the continue on line 75 before the
model runs and before the stop-key poll; an exception anywhere in the
body is caught on line 111 and also skips the stop-key poll via the
continue on line 113, keeping all effects produced before the raise. -/
def stepTick (saved : Finset ℤ) (t : Tick) : StepOut :=
  if t.rp = RaisePoint.beforeDets then ⟨saved, [], 0, false⟩
  else if t.ret = false then ⟨saved, [], 0, false⟩
  else
    let l := t.dets.getD []
    match t.rp with
    | RaisePoint.atDet i =>
      let p := processDets t.w t.h saved (l.take i)
      ⟨p.1, p.2, 1, false⟩
    | RaisePoint.atShow =>
      let p := processDets t.w t.h saved l
      ⟨p.1, p.2, 1, false⟩
    | _ =>
      let p := processDets t.w t.h saved l
      ⟨p.1, p.2, 1, t.stopKey⟩

/-- A session: the while True loop of process_frame run over a finite
list of environment ticks, stopping early when the break fires.  Returns
the final saved_stone_ids registry, the per-iteration event lists of the
iterations that actually ran, and the total number of model.track
invocations. -/
def runSession (saved : Finset ℤ) : List Tick → Finset ℤ × List (List Ev) × ℕ
  | [] => (saved, [], 0)
  | t :: ts =>
    let o := stepTick saved t
    if o.stop then (o.saved, [o.events], o.detCalls)
    else
      let r := runSession o.saved ts
      (r.1, o.events :: r.2.1, o.detCalls + r.2.2)

/-- Number of snapshot-sink invocations for a given track id across the
recorded iterations of a session. -/
def snapsFor (tid : ℤ) (evss : List (List Ev)) : ℕ :=
  evss.flatten.countP (fun e => decide (e = Ev.snapshot tid))

/-- Total number of snapshot-sink invocations across the recorded
iterations of a session. -/
def snapTotal (evss : List (List Ev)) : ℕ := evss.flatten.countP isSnap

/-- The tick reports a successful read and its detection list contains
the given track id with a flagged class label. -/
def flaggedInTick (t : Tick) (tid : ℤ) : Prop :=
  t.ret = true ∧ ∃ d ∈ t.dets.getD [], d.trackId = tid ∧ flaggedB d.cls = true

instance (t : Tick) (tid : ℤ) : Decidable (flaggedInTick t tid) := by
  unfold flaggedInTick
  infer_instance

/-- A wall-clock instant as datetime.now() exposes it on line 58 of
src/main.py: calendar fields plus the microsecond within the second. -/
structure PyTime where
  day : ℕ
  month : ℕ
  year : ℕ
  hour : ℕ
  minute : ℕ
  second : ℕ
  micro : ℕ
deriving DecidableEq

/-- Field bounds under which the zero-padded strftime fields have their
nominal widths: two digits for day, month, hour, minute and second, four
digits for the year, and a microsecond below one million. -/
def validTime (t : PyTime) : Prop :=
  t.day < 100 ∧ t.month < 100 ∧ t.year < 10000 ∧ t.hour < 100 ∧
    t.minute < 100 ∧ t.second < 100 ∧ t.micro < 1000000

instance (t : PyTime) : Decidable (validTime t) := by
  unfold validTime
  infer_instance

/-- Line 58 of src/main.py: the characters of
strftime of the pattern day-month-year hour-minute-second- followed by
the three-digit millisecond, microsecond // 1000. -/
def timestampChars (t : PyTime) : List Char :=
  chars2 t.day ++ [Char.ofNat 45] ++ chars2 t.month ++ [Char.ofNat 45] ++ chars4 t.year ++
    [Char.ofNat 32] ++ chars2 t.hour ++ [Char.ofNat 45] ++ chars2 t.minute ++
    [Char.ofNat 45] ++ chars2 t.second ++ [Char.ofNat 45] ++ chars3 (t.micro / 1000)

/-- The characters of the save_path constant on line 15 of src/main.py. -/
def savePathChars : List Char := "c:/potato-identifier/".toList

/-- The characters of the .jpg extension on line 59 of src/main.py. -/
def jpgChars : List Char := ".jpg".toList

/-- Line 59 of src/main.py: os.path.join of save_path (which ends in a
slash) with the timestamp plus .jpg. -/
def snapshotFilename (t : PyTime) : String :=
  String.mk (savePathChars ++ timestampChars t ++ jpgChars)

/-- The information the generated filename actually depends on: the
calendar fields and the microsecond truncated to the millisecond. -/
def msKey (t : PyTime) : ℕ × ℕ × ℕ × ℕ × ℕ × ℕ × ℕ :=
  (t.day, t.month, t.year, t.hour, t.minute, t.second, t.micro / 1000)

/-- Filesystem environment seen by one save_stone_image call: whether the
destination directory already exists and whether the imwrite (or the
makedirs) fails. -/
structure SaveEnv where
  dirExists : Bool
  writeFails : Bool
deriving DecidableEq

/-- Observable outcome of one save_stone_image call. -/
structure SaveResult where
  mkdirCalled : Bool
  path : String
  writeSucceeded : Bool
  raised : Bool
deriving DecidableEq

/-- Lines 50-66 of src/main.py: save_stone_image creates the directory
when it is absent, writes the frame under the timestamp filename, and
catches every exception internally (lines 65-66), so it never raises and
reports nothing about success or failure to its caller. -/
def saveStoneImage (env : SaveEnv) (t : PyTime) : SaveResult :=
  ⟨!env.dirExists, snapshotFilename t, !env.writeFails, false⟩

/-- Lines 103-105 of src/main.py with the save call made explicit: when
the label is flagged and the id is not yet registered, save_stone_image
runs and then the id is added to saved_stone_ids, unconditionally on the
outcome of the save. -/
def dedupStep (env : SaveEnv) (t : PyTime) (saved : Finset ℤ) (label : String) (tid : ℤ) :
    Finset ℤ × Option SaveResult :=
  if flaggedB label ∧ tid ∉ saved then
    (insert tid saved, some (saveStoneImage env t))
  else
    (saved, none)

/-- Outcome of cv2.VideoCapture during init_camera (lines 30-48 of
src/main.py): the constructor raises, or it returns an unopened capture,
or it returns an opened capture.  Window creation is display plumbing
and is assumed not to fail. -/
inductive InitOutcome where
  | ctorRaises : InitOutcome
  | notOpened : InitOutcome
  | ok : InitOutcome
deriving DecidableEq

/-- The camera resource as the rest of the program sees it. -/
structure Camera where
  opened : Bool
deriving DecidableEq

/-- Lines 30-48 of src/main.py: init_camera.  On a constructor raise the
exception is caught and self.camera stays None; on an unopened capture
the camera field holds the unopened resource and False is returned. -/
def initCamera : InitOutcome → Option Camera × Bool
  | InitOutcome.ctorRaises => (none, false)
  | InitOutcome.notOpened => (some ⟨false⟩, false)
  | InitOutcome.ok => (some ⟨true⟩, true)

/-- Truthiness of self.camera and self.camera.isOpened(), the guard used
on lines 118 and 135 of src/main.py. -/
def camUsable : Option Camera → Bool
  | some c => c.opened
  | none => false

/-- Lines 115-123 of src/main.py: cleanup releases the capture only when
it is present and opened, then destroys the windows; every exception is
caught.  Returns how many release calls happened and whether cleanup
raised. -/
def cleanupRun (cam : Option Camera) : ℕ × Bool :=
  (if camUsable cam then 1 else 0, false)

/-- Observable trace of one execution of main (lines 132-138 of
src/main.py). -/
structure MainTrace where
  processFrameInvoked : Bool
  cleanupCalls : ℕ
  releaseCalls : ℕ
  cleanupRaised : Bool
deriving DecidableEq

/-- Lines 125-138 of src/main.py: the with statement calls init_camera
and discards its result, the body calls process_frame only when the
camera is present and opened, and the exit hook calls cleanup exactly
once. -/
def mainRun (o : InitOutcome) : MainTrace :=
  let cam := (initCamera o).1
  let invoked := camUsable cam
  let cl := cleanupRun cam
  ⟨invoked, 1, cl.1, cl.2⟩

/-- Snapshot-sink invocations for one track id within one event list. -/
def countSnapFor (tid : ℤ) (evs : List Ev) : ℕ :=
  evs.countP (fun e => decide (e = Ev.snapshot tid))

theorem snapsFor_cons (tid : ℤ) (evs : List Ev) (rest : List (List Ev)) :
    snapsFor tid (evs :: rest) = countSnapFor tid evs + snapsFor tid rest := by
  simp [snapsFor, countSnapFor, List.flatten_cons, List.countP_append]

theorem countSnapFor_annEvents (w h : ℕ) (d : Detection) (tid : ℤ) :
    countSnapFor tid (annEvents w h d) = 0 := by
  simp [countSnapFor, annEvents]

theorem processOne_saved_mono (w h : ℕ) (saved : Finset ℤ) (d : Detection) :
    saved ⊆ (processOne w h saved d).1 := by
  unfold processOne
  split
  · exact Finset.subset_insert _ _
  · exact Finset.Subset.refl _

theorem mem_processOne_saved (w h : ℕ) (saved : Finset ℤ) (d : Detection) (tid : ℤ) :
    tid ∈ (processOne w h saved d).1 ↔
      tid ∈ saved ∨ (d.trackId = tid ∧ flaggedB d.cls = true) := by
  by_cases hf : flaggedB d.cls = true
  · by_cases hm : d.trackId ∈ saved
    · rw [processOne, if_neg (by simp [hm])]
      constructor
      · exact Or.inl
      · rintro (h | ⟨rfl, -⟩)
        · exact h
        · exact hm
    · rw [processOne, if_pos ⟨hf, hm⟩]
      simp only [Finset.mem_insert]
      constructor
      · rintro (rfl | h)
        · exact Or.inr ⟨rfl, hf⟩
        · exact Or.inl h
      · rintro (h | ⟨rfl, -⟩)
        · exact Or.inr h
        · exact Or.inl rfl
  · rw [processOne, if_neg (by simp [hf])]
    constructor
    · exact Or.inl
    · rintro (h | ⟨rfl, hfl⟩)
      · exact h
      · exact absurd hfl hf

theorem countSnapFor_processOne (w h : ℕ) (saved : Finset ℤ) (d : Detection) (tid : ℤ) :
    countSnapFor tid (processOne w h saved d).2 =
      if d.trackId = tid ∧ flaggedB d.cls = true ∧ tid ∉ saved then 1 else 0 := by
  by_cases hf : flaggedB d.cls = true
  · by_cases hm : d.trackId ∈ saved
    · rw [processOne, if_neg (by simp [hm])]
      rw [countSnapFor_annEvents, if_neg]
      rintro ⟨rfl, -, hmem⟩
      exact hmem hm
    · rw [processOne, if_pos ⟨hf, hm⟩]
      by_cases he : d.trackId = tid
      · subst he
        rw [if_pos ⟨rfl, hf, hm⟩]
        simp [countSnapFor, List.countP_append, annEvents]
      · rw [if_neg (by rintro ⟨h, -⟩; exact he h)]
        simp [countSnapFor, List.countP_append, annEvents, he]
  · rw [processOne, if_neg (by simp [hf])]
    rw [countSnapFor_annEvents, if_neg]
    rintro ⟨-, hfl, -⟩
    exact hf hfl

theorem processDets_saved_mono (w h : ℕ) (l : List Detection) :
    ∀ saved : Finset ℤ, saved ⊆ (processDets w h saved l).1 := by
  induction l with
  | nil => intro saved; exact Finset.Subset.refl _
  | cons d ds ih =>
    intro saved
    exact (processOne_saved_mono w h saved d).trans (ih _)

theorem mem_processDets_saved (w h : ℕ) (l : List Detection) :
    ∀ (saved : Finset ℤ) (tid : ℤ),
      tid ∈ (processDets w h saved l).1 ↔
        tid ∈ saved ∨ ∃ d ∈ l, d.trackId = tid ∧ flaggedB d.cls = true := by
  induction l with
  | nil => intro saved tid; simp [processDets]
  | cons d ds ih =>
    intro saved tid
    show tid ∈ (processDets w h (processOne w h saved d).1 ds).1 ↔ _
    rw [ih, mem_processOne_saved]
    simp only [List.mem_cons]
    constructor
    · rintro ((h | h) | ⟨d2, hd2, hq⟩)
      · exact Or.inl h
      · exact Or.inr ⟨d, Or.inl rfl, h⟩
      · exact Or.inr ⟨d2, Or.inr hd2, hq⟩
    · rintro (h | ⟨d2, (rfl | hd2), hq⟩)
      · exact Or.inl (Or.inl h)
      · exact Or.inl (Or.inr hq)
      · exact Or.inr ⟨d2, hd2, hq⟩

theorem countSnapFor_processDets (w h : ℕ) (l : List Detection) :
    ∀ (saved : Finset ℤ) (tid : ℤ),
      countSnapFor tid (processDets w h saved l).2 =
        if tid ∉ saved ∧ ∃ d ∈ l, d.trackId = tid ∧ flaggedB d.cls = true then 1 else 0 := by
  induction l with
  | nil => intro saved tid; simp [processDets, countSnapFor]
  | cons d ds ih =>
    intro saved tid
    show countSnapFor tid ((processOne w h saved d).2 ++
      (processDets w h (processOne w h saved d).1 ds).2) = _
    rw [countSnapFor, List.countP_append]
    rw [← countSnapFor, ← countSnapFor, countSnapFor_processOne, ih]
    by_cases hm : tid ∈ saved
    · rw [if_neg (by rintro ⟨rfl, -, hn⟩; exact hn hm),
        if_neg (by rintro ⟨hn, -⟩; exact hn ((processOne_saved_mono w h saved d) hm)),
        if_neg (by rintro ⟨hn, -⟩; exact hn hm)]
    · by_cases hd : d.trackId = tid ∧ flaggedB d.cls = true
      · rw [if_pos ⟨hd.1, hd.2, hm⟩,
          if_neg (by
            rintro ⟨hn, -⟩
            exact hn ((mem_processOne_saved w h saved d tid).mpr (Or.inr hd))),
          if_pos ⟨hm, d, List.mem_cons_self d ds, hd⟩]
      · rw [if_neg (by rintro ⟨h1, h2, -⟩; exact hd ⟨h1, h2⟩)]
        have hp : tid ∉ (processOne w h saved d).1 := by
          rw [mem_processOne_saved]
          rintro (h | h)
          · exact hm h
          · exact hd h
        by_cases hex : ∃ d2 ∈ ds, d2.trackId = tid ∧ flaggedB d2.cls = true
        · rw [if_pos ⟨hp, hex⟩, if_pos ⟨hm, by
            obtain ⟨d2, h2, hq⟩ := hex
            exact ⟨d2, List.mem_cons_of_mem d h2, hq⟩⟩]
        · rw [if_neg (by rintro ⟨-, h⟩; exact hex h), if_neg (by
            rintro ⟨-, d2, h2, hq⟩
            rcases List.mem_cons.mp h2 with rfl | h2
            · exact hd hq
            · exact hex ⟨d2, h2, hq⟩)]

theorem snap_mem_iff_count (tid : ℤ) (evs : List Ev) :
    Ev.snapshot tid ∈ evs ↔ 0 < countSnapFor tid evs := by
  rw [countSnapFor, List.countP_pos_iff]
  simp

theorem snap_mem_processDets (w h : ℕ) (l : List Detection) (saved : Finset ℤ) (tid : ℤ) :
    Ev.snapshot tid ∈ (processDets w h saved l).2 ↔
      tid ∉ saved ∧ ∃ d ∈ l, d.trackId = tid ∧ flaggedB d.cls = true := by
  rw [snap_mem_iff_count, countSnapFor_processDets]
  split
  case isTrue hc => simpa using hc
  case isFalse hc => simpa using hc

theorem stepTick_spec (saved : Finset ℤ) (t : Tick) :
    ∃ m : List Detection, m ⊆ t.dets.getD [] ∧
      (stepTick saved t).saved = (processDets t.w t.h saved m).1 ∧
      (stepTick saved t).events = (processDets t.w t.h saved m).2 ∧
      (stepTick saved t).detCalls ≤ 1 := by
  unfold stepTick
  split
  · exact ⟨[], by simp, by simp [processDets], by simp [processDets], by simp⟩
  · split
    · exact ⟨[], by simp, by simp [processDets], by simp [processDets], by simp⟩
    · split
      · exact ⟨(t.dets.getD []).take _, List.take_subset _ _, rfl, rfl, le_refl _⟩
      · exact ⟨t.dets.getD [], fun x h => h, rfl, rfl, le_refl _⟩
      · exact ⟨t.dets.getD [], fun x h => h, rfl, rfl, le_refl _⟩

theorem stepTick_saved_mono (saved : Finset ℤ) (t : Tick) :
    saved ⊆ (stepTick saved t).saved := by
  obtain ⟨m, -, hs, -, -⟩ := stepTick_spec saved t
  rw [hs]
  exact processDets_saved_mono _ _ _ _

theorem stepTick_ret_false (saved : Finset ℤ) (t : Tick) (h : t.ret = false) :
    stepTick saved t = ⟨saved, [], 0, false⟩ := by
  unfold stepTick
  rw [h]
  simp

theorem stepTick_noRaise (saved : Finset ℤ) (t : Tick) (h1 : t.rp = RaisePoint.noRaise)
    (h2 : t.ret = true) :
    stepTick saved t = ⟨(processDets t.w t.h saved (t.dets.getD [])).1,
      (processDets t.w t.h saved (t.dets.getD [])).2, 1, t.stopKey⟩ := by
  simp [stepTick, h1, h2]

theorem runSession_saved_mono (ts : List Tick) :
    ∀ saved : Finset ℤ, saved ⊆ (runSession saved ts).1 := by
  induction ts with
  | nil => intro saved; exact Finset.Subset.refl _
  | cons t ts ih =>
    intro saved
    simp only [runSession]
    split
    · exact stepTick_saved_mono saved t
    · exact (stepTick_saved_mono saved t).trans (ih _)

theorem snapsFor_runSession (ts : List Tick) :
    ∀ (saved : Finset ℤ) (tid : ℤ),
      (tid ∈ saved → snapsFor tid (runSession saved ts).2.1 = 0) ∧
        snapsFor tid (runSession saved ts).2.1 ≤ 1 := by
  induction ts with
  | nil => intro saved tid; exact ⟨fun _ => by simp [runSession, snapsFor], by simp [runSession, snapsFor]⟩
  | cons t ts ih =>
    intro saved tid
    obtain ⟨m, hm, hs, he, -⟩ := stepTick_spec saved t
    simp only [runSession]
    split
    · rw [show ([(stepTick saved t).events] : List (List Ev)) =
        (stepTick saved t).events :: List.nil from rfl, snapsFor_cons]
      rw [he, countSnapFor_processDets]
      constructor
      · intro hmem
        rw [if_neg (by rintro ⟨hn, -⟩; exact hn hmem)]
        simp [snapsFor]
      · split <;> simp [snapsFor]
    · rw [snapsFor_cons, he, countSnapFor_processDets]
      constructor
      · intro hmem
        rw [if_neg (by rintro ⟨hn, -⟩; exact hn hmem)]
        have : tid ∈ (stepTick saved t).saved := (stepTick_saved_mono saved t) hmem
        simp [(ih _ tid).1 this]
      · split
        case isTrue hc =>
          have : tid ∈ (stepTick saved t).saved := by
            rw [hs, mem_processDets_saved]
            exact Or.inr hc.2
          simp [(ih _ tid).1 this]
        case isFalse hc =>
          have := (ih ((stepTick saved t).saved) tid).2
          omega

theorem flaggedInTick_ret_false (t : Tick) (tid : ℤ) (h : t.ret = false) :
    ¬ flaggedInTick t tid := by
  rintro ⟨h1, -⟩
  rw [h] at h1
  exact Bool.false_ne_true h1

theorem runSession_first_flag (ts : List Tick) :
    ∀ (saved : Finset ℤ) (tid : ℤ),
      (∀ t ∈ ts, t.rp = RaisePoint.noRaise ∧ t.stopKey = false) →
        (runSession saved ts).2.1.length = ts.length ∧
        ∀ i, i < ts.length →
          (Ev.snapshot tid ∈ (runSession saved ts).2.1.getD i [] ↔
            (tid ∉ saved ∧ flaggedInTick (ts.getD i defaultTick) tid ∧
              ∀ j, j < i → ¬ flaggedInTick (ts.getD j defaultTick) tid)) := by
  induction ts with
  | nil =>
    intro saved tid _
    exact ⟨by simp [runSession], fun i hi => absurd hi (by simp)⟩
  | cons t ts ih =>
    intro saved tid hall
    obtain ⟨hrp, hsk⟩ := hall t (List.mem_cons_self t ts)
    have hts : ∀ t2 ∈ ts, t2.rp = RaisePoint.noRaise ∧ t2.stopKey = false :=
      fun t2 h2 => hall t2 (List.mem_cons_of_mem t h2)
    have hstop : (stepTick saved t).stop = false := by
      cases hr : t.ret
      · rw [stepTick_ret_false saved t hr]
      · rw [stepTick_noRaise saved t hrp hr]
        exact hsk
    have hev : (stepTick saved t).events =
        if t.ret = true then (processDets t.w t.h saved (t.dets.getD [])).2 else [] := by
      cases hr : t.ret
      · rw [stepTick_ret_false saved t hr]
        simp
      · rw [stepTick_noRaise saved t hrp hr]
        simp
    have hmem_iff : ∀ z : ℤ, z ∈ (stepTick saved t).saved ↔ z ∈ saved ∨ flaggedInTick t z := by
      intro z
      cases hr : t.ret
      · rw [stepTick_ret_false saved t hr]
        simp only []
        constructor
        · exact Or.inl
        · rintro (h | h)
          · exact h
          · exact absurd h (flaggedInTick_ret_false t z hr)
      · rw [stepTick_noRaise saved t hrp hr]
        show z ∈ (processDets t.w t.h saved (t.dets.getD [])).1 ↔ _
        rw [mem_processDets_saved]
        unfold flaggedInTick
        rw [hr]
        simp
    simp only [runSession, hstop, Bool.false_eq_true, if_false]
    obtain ⟨ihlen, ihgetD⟩ := ih (stepTick saved t).saved tid hts
    constructor
    · simp [ihlen]
    · intro i hi
      cases i with
      | zero =>
        simp only [List.getD_cons_zero]
        rw [hev]
        cases hr : t.ret
        · rw [if_neg Bool.false_ne_true]
          simp only [List.not_mem_nil, false_iff]
          rintro ⟨-, hf, -⟩
          exact flaggedInTick_ret_false t tid hr hf
        · rw [if_pos rfl, snap_mem_processDets]
          unfold flaggedInTick
          rw [hr]
          constructor
          · rintro ⟨h1, h2⟩
            exact ⟨h1, ⟨rfl, h2⟩, fun j hj => absurd hj (Nat.not_lt_zero j)⟩
          · rintro ⟨h1, ⟨-, h2⟩, -⟩
            exact ⟨h1, h2⟩
      | succ i2 =>
        simp only [List.getD_cons_succ, List.length_cons] at hi ⊢
        rw [ihgetD i2 (Nat.lt_of_succ_lt_succ hi)]
        have hquant : (∀ j, j < i2 + 1 → ¬ flaggedInTick ((t :: ts).getD j defaultTick) tid) ↔
            (¬ flaggedInTick t tid ∧
              ∀ j, j < i2 → ¬ flaggedInTick (ts.getD j defaultTick) tid) := by
          constructor
          · intro h
            refine ⟨by simpa using h 0 (Nat.succ_pos i2), fun j hj => ?_⟩
            have := h (j + 1) (Nat.succ_lt_succ hj)
            simpa using this
          · rintro ⟨h0, h⟩ j hj
            cases j with
            | zero => simpa using h0
            | succ j2 =>
              have := h j2 (Nat.lt_of_succ_lt_succ hj)
              simpa using this
        rw [hquant]
        have hnot : tid ∉ (stepTick saved t).saved ↔ (tid ∉ saved ∧ ¬ flaggedInTick t tid) := by
          rw [hmem_iff tid]
          push_neg
          exact Iff.rfl
        rw [hnot]
        tauto

theorem snapTotal_cons (evs : List Ev) (rest : List (List Ev)) :
    snapTotal (evs :: rest) = evs.countP isSnap + snapTotal rest := by
  simp [snapTotal, List.flatten_cons, List.countP_append]

theorem countP_isSnap_annEvents (w h : ℕ) (d : Detection) :
    (annEvents w h d).countP isSnap = 0 := by
  simp [annEvents, isSnap]

theorem countP_isSnap_processDets (w h : ℕ) (l : List Detection) :
    ∀ saved : Finset ℤ, (∀ d ∈ l, flaggedB d.cls = false) →
      (processDets w h saved l).2.countP isSnap = 0 := by
  induction l with
  | nil => intro saved _; simp [processDets]
  | cons d ds ih =>
    intro saved hno
    show ((processOne w h saved d).2 ++
      (processDets w h (processOne w h saved d).1 ds).2).countP isSnap = 0
    rw [List.countP_append]
    have h1 : (processOne w h saved d).2 = annEvents w h d := by
      rw [processOne, if_neg]
      rintro ⟨hf, -⟩
      rw [hno d (List.mem_cons_self d ds)] at hf
      exact Bool.false_ne_true hf
    rw [h1, countP_isSnap_annEvents, ih _ (fun d2 h2 => hno d2 (List.mem_cons_of_mem d h2))]

theorem snapTotal_runSession (ts : List Tick) :
    ∀ saved : Finset ℤ, (∀ t ∈ ts, ∀ d ∈ t.dets.getD [], flaggedB d.cls = false) →
      snapTotal (runSession saved ts).2.1 = 0 := by
  induction ts with
  | nil => intro saved _; simp [runSession, snapTotal]
  | cons t ts ih =>
    intro saved hno
    obtain ⟨m, hm, -, he, -⟩ := stepTick_spec saved t
    have hstep : (stepTick saved t).events.countP isSnap = 0 := by
      rw [he]
      exact countP_isSnap_processDets t.w t.h m _
        (fun d hd => hno t (List.mem_cons_self t ts) d (hm hd))
    simp only [runSession]
    split
    · rw [show ([(stepTick saved t).events] : List (List Ev)) =
        (stepTick saved t).events :: List.nil from rfl, snapTotal_cons, hstep]
      simp [snapTotal]
    · rw [snapTotal_cons, hstep,
        ih _ (fun t2 h2 => hno t2 (List.mem_cons_of_mem t h2))]

theorem digitChar_inj : ∀ a < 10, ∀ b < 10, Nat.digitChar a = Nat.digitChar b → a = b := by
  decide

theorem timestampChars_inj (t1 t2 : PyTime) (h1 : validTime t1) (h2 : validTime t2)
    (h : timestampChars t1 = timestampChars t2) : msKey t1 = msKey t2 := by
  obtain ⟨b1, b2, b3, b4, b5, b6, b7⟩ := h1
  obtain ⟨c1, c2, c3, c4, c5, c6, c7⟩ := h2
  unfold timestampChars chars2 chars3 chars4 at h
  simp only [List.cons_append, List.nil_append, List.append_assoc] at h
  simp only [List.cons.injEq, and_true, true_and] at h
  obtain ⟨q1, q2, q3, q4, q5, q6, q7, q8, q9, q10, q11, q12, q13, q14, q15, q16, q17⟩ := h
  have e1 := digitChar_inj _ (by omega) _ (by omega) q1
  have e2 := digitChar_inj _ (by omega) _ (by omega) q2
  have e3 := digitChar_inj _ (by omega) _ (by omega) q3
  have e4 := digitChar_inj _ (by omega) _ (by omega) q4
  have e5 := digitChar_inj _ (by omega) _ (by omega) q5
  have e6 := digitChar_inj _ (by omega) _ (by omega) q6
  have e7 := digitChar_inj _ (by omega) _ (by omega) q7
  have e8 := digitChar_inj _ (by omega) _ (by omega) q8
  have e9 := digitChar_inj _ (by omega) _ (by omega) q9
  have e10 := digitChar_inj _ (by omega) _ (by omega) q10
  have e11 := digitChar_inj _ (by omega) _ (by omega) q11
  have e12 := digitChar_inj _ (by omega) _ (by omega) q12
  have e13 := digitChar_inj _ (by omega) _ (by omega) q13
  have e14 := digitChar_inj _ (by omega) _ (by omega) q14
  have e15 := digitChar_inj _ (by omega) _ (by omega) q15
  have e16 := digitChar_inj _ (by omega) _ (by omega) q16
  have e17 := digitChar_inj _ (by omega) _ (by omega) q17
  simp only [msKey, Prod.mk.injEq]
  omega

theorem snapshotFilename_inj (t1 t2 : PyTime) (h1 : validTime t1) (h2 : validTime t2)
    (h : snapshotFilename t1 = snapshotFilename t2) : msKey t1 = msKey t2 := by
  apply timestampChars_inj t1 t2 h1 h2
  unfold snapshotFilename at h
  injection h with hdata
  exact List.append_cancel_left (List.append_cancel_right hdata)

theorem snapshotFilename_congr (t1 t2 : PyTime) (h : msKey t1 = msKey t2) :
    snapshotFilename t1 = snapshotFilename t2 := by
  simp only [msKey, Prod.mk.injEq] at h
  obtain ⟨hd, hm, hy, hh, hmin, hs, hms⟩ := h
  unfold snapshotFilename timestampChars
  rw [hd, hm, hy, hh, hmin, hs, hms]

/-- C3: coordinate rescaling multiplies x-coordinates by W/640 and
y-coordinates by H/640 and truncates to an integer, with no clamping to
the frame bounds: the box (0,0,640,640) against a 1980x1080 original
rescales exactly to (0,0,1980,1080); a box reaching past the working
frame rescales past the original frame bounds (no clamping); fractional
results are truncated, not rounded. -/
theorem C3_rescale :
    rescaleBox 1980 1080 (0, 0, 640, 640) = (0, 0, 1980, 1080) ∧
    (rescaleBox 1980 1080 (0, 0, 700, 700) = (0, 0, 2165, 1181) ∧
      1980 < 2165 ∧ 1080 < 1181) ∧
    rescaleBox 1980 1080 (1, 1, 2, 2) = (3, 1, 6, 3) := by
  refine ⟨?_, ⟨?_, by norm_num, by norm_num⟩, ?_⟩ <;>
    simp only [rescaleBox, pyInt, Prod.mk.injEq] <;> norm_num

/-- C5: when camera initialization fails (the capture constructor raises,
or the capture is not opened), process_frame is never invoked, cleanup
runs exactly once, raises nothing, and performs no release call; release
is a no-op on a camera resource that was never successfully acquired. -/
theorem C5_init_failure (o : InitOutcome) (h : o ≠ InitOutcome.ok) :
    (mainRun o).processFrameInvoked = false ∧
    (mainRun o).cleanupCalls = 1 ∧
    (mainRun o).cleanupRaised = false ∧
    (mainRun o).releaseCalls = 0 ∧
    cleanupRun none = (0, false) ∧
    cleanupRun (some ⟨false⟩) = (0, false) := by
  cases o
  · exact ⟨rfl, rfl, rfl, rfl, rfl, rfl⟩
  · exact ⟨rfl, rfl, rfl, rfl, rfl, rfl⟩
  · exact absurd rfl h

theorem C5_init_failure_witness :
    (mainRun InitOutcome.ctorRaises).processFrameInvoked = false ∧
    (mainRun InitOutcome.ctorRaises).cleanupCalls = 1 ∧
    (mainRun InitOutcome.ctorRaises).cleanupRaised = false ∧
    (mainRun InitOutcome.ctorRaises).releaseCalls = 0 ∧
    cleanupRun none = (0, false) ∧
    cleanupRun (some ⟨false⟩) = (0, false) :=
  C5_init_failure InitOutcome.ctorRaises (by decide)

/-- C8 counterexample: two distinct invocation instants, 123000 and
123999 microseconds into the same second, produce the same snapshot
filename, so two snapshot invocations within one session can collide. -/
theorem C8_counterexample :
    (⟨5, 10, 2026, 12, 30, 45, 123000⟩ : PyTime) ≠ ⟨5, 10, 2026, 12, 30, 45, 123999⟩ ∧
    snapshotFilename ⟨5, 10, 2026, 12, 30, 45, 123000⟩ =
      snapshotFilename ⟨5, 10, 2026, 12, 30, 45, 123999⟩ := by
  exact ⟨by decide, by decide⟩

/-- C8 (amended): every snapshot-sink invocation derives its filename
from the date, time and millisecond (microsecond truncated to
milliseconds), creates the destination directory exactly when it is
absent and propagates no failure; two invocations produce the same
filename if and only if their timestamps agree at millisecond precision,
so filenames are unique only across invocations in distinct
milliseconds. -/
theorem C8_filename_millisecond (t1 t2 : PyTime) (h1 : validTime t1) (h2 : validTime t2) :
    (snapshotFilename t1 = snapshotFilename t2 ↔ msKey t1 = msKey t2) ∧
    (∀ (env : SaveEnv) (t : PyTime),
      (saveStoneImage env t).mkdirCalled = !env.dirExists ∧
      (saveStoneImage env t).raised = false ∧
      (saveStoneImage env t).path = snapshotFilename t) :=
  ⟨⟨snapshotFilename_inj t1 t2 h1 h2, snapshotFilename_congr t1 t2⟩,
    fun _ _ => ⟨rfl, rfl, rfl⟩⟩

theorem C8_filename_millisecond_witness :
    (snapshotFilename ⟨5, 10, 2026, 12, 30, 45, 124000⟩ =
        snapshotFilename ⟨5, 10, 2026, 12, 30, 45, 125000⟩ ↔
      msKey ⟨5, 10, 2026, 12, 30, 45, 124000⟩ = msKey ⟨5, 10, 2026, 12, 30, 45, 125000⟩) ∧
    (∀ (env : SaveEnv) (t : PyTime),
      (saveStoneImage env t).mkdirCalled = !env.dirExists ∧
      (saveStoneImage env t).raised = false ∧
      (saveStoneImage env t).path = snapshotFilename t) :=
  C8_filename_millisecond _ _ (by decide) (by decide)

/-- C2 counterexample: with a filesystem where the write fails, the
dedup step still marks track id 5 as saved, while the save outcome
reports an unsuccessful write: the registry is updated regardless of
persistence success, because save_stone_image swallows its failures. -/
theorem C2_counterexample :
    (dedupStep ⟨true, true⟩ ⟨5, 10, 2026, 12, 30, 45, 123000⟩ ∅ "PEDRA" 5).1 = {5} ∧
    ((dedupStep ⟨true, true⟩ ⟨5, 10, 2026, 12, 30, 45, 123000⟩ ∅ "PEDRA" 5).2.map
      (fun r => r.writeSucceeded)) = some false := by
  exact ⟨by decide, by decide⟩

/-- C2 (amended): a flagged, not-yet-registered track id is inserted
into the Saved-ID Registry immediately after the snapshot attempt,
regardless of whether persistence succeeded: save_stone_image catches
all failures internally and reports nothing, so a failed write still
marks the id as saved and a later frame with the same flagged track id
performs no new save attempt. -/
theorem C2_registry_regardless (env : SaveEnv) (tm : PyTime) (saved : Finset ℤ)
    (label : String) (tid : ℤ) (hf : flaggedB label = true) (hm : tid ∉ saved) :
    (dedupStep env tm saved label tid).1 = insert tid saved ∧
    (dedupStep env tm saved label tid).2 = some (saveStoneImage env tm) ∧
    (saveStoneImage env tm).raised = false ∧
    (dedupStep env tm (insert tid saved) label tid).2 = none := by
  unfold dedupStep
  rw [if_pos ⟨hf, hm⟩, if_neg (by rintro ⟨-, hn⟩; exact hn (Finset.mem_insert_self tid saved))]
  exact ⟨rfl, rfl, rfl, rfl⟩

theorem C2_registry_regardless_witness :
    (dedupStep ⟨true, true⟩ ⟨5, 10, 2026, 12, 30, 45, 123000⟩ ∅ "PEDRA" 5).1 = insert 5 ∅ ∧
    (dedupStep ⟨true, true⟩ ⟨5, 10, 2026, 12, 30, 45, 123000⟩ ∅ "PEDRA" 5).2 =
      some (saveStoneImage ⟨true, true⟩ ⟨5, 10, 2026, 12, 30, 45, 123000⟩) ∧
    (saveStoneImage ⟨true, true⟩ ⟨5, 10, 2026, 12, 30, 45, 123000⟩).raised = false ∧
    (dedupStep ⟨true, true⟩ ⟨5, 10, 2026, 12, 30, 45, 123000⟩ (insert 5 ∅) "PEDRA" 5).2 = none :=
  C2_registry_regardless ⟨true, true⟩ ⟨5, 10, 2026, 12, 30, 45, 123000⟩ ∅ "PEDRA" 5
    (by decide) (by decide)

/-- C10: a session whose detections never carry a flagged class label
performs no snapshot-sink invocation at all, regardless of track id
repetition; the flagged-class set is exactly PEDRA, PEDRA-NA-BATATA and
BATATA-COM-PEDRA, so PODRE and OK are not flagged even though PODRE has
its own entry in the color table. -/
theorem C10_flagged_set :
    (∀ (saved : Finset ℤ) (ts : List Tick),
      (∀ t ∈ ts, ∀ d ∈ t.dets.getD [], flaggedB d.cls = false) →
        snapTotal (runSession saved ts).2.1 = 0) ∧
    (∀ label : String, flaggedB label = true ↔
      (label = "PEDRA" ∨ label = "PEDRA-NA-BATATA" ∨ label = "BATATA-COM-PEDRA")) ∧
    flaggedB "PODRE" = false ∧
    flaggedB "OK" = false ∧
    colors.lookup "PODRE" = some (255, 0, 0) := by
  refine ⟨fun saved ts h => snapTotal_runSession ts saved h, fun label => ?_,
    by decide, by decide, by decide⟩
  simp only [flaggedB, Bool.or_eq_true, beq_iff_eq]
  tauto

theorem C10_flagged_set_witness :
    snapTotal (runSession ∅
      [⟨true, 1980, 1080, some [⟨(0, 0, 10, 10), "PODRE", 1, 3⟩,
        ⟨(0, 0, 10, 10), "OK", 1, 3⟩], RaisePoint.noRaise, false⟩,
       ⟨true, 1980, 1080, some [⟨(0, 0, 10, 10), "PODRE", 1, 3⟩],
        RaisePoint.noRaise, false⟩]).2.1 = 0 :=
  C10_flagged_set.1 ∅ _ (by decide)

/-- C9: annotation happens for every detected instance regardless of
flag status and in list order, consisting of the rescaled rectangle and
the class-and-confidence text (confidence to two decimal places) placed
10 pixels above the top-left corner, in the color from the label table;
per instance the annotation precedes any snapshot decision; labels
absent from the table get the default color, which is the same green as
the OK entry. -/
theorem C9_annotation :
    (∀ (w h : ℕ) (saved : Finset ℤ) (l : List Detection),
      ((processDets w h saved l).2.filter (fun e => !(isSnap e))) =
        (l.map (annEvents w h)).flatten) ∧
    (∀ (w h : ℕ) (saved : Finset ℤ) (d : Detection),
      (processOne w h saved d).2 = annEvents w h d ++
        (if flaggedB d.cls ∧ d.trackId ∉ saved then [Ev.snapshot d.trackId] else [])) ∧
    (∀ (w h : ℕ) (d : Detection),
      annEvents w h d = [Ev.rect (rescaleBox w h d.box) (colorsGet d.cls),
        Ev.text (d.cls ++ ": " ++ fmt2 d.score)
          ((rescaleBox w h d.box).1, (rescaleBox w h d.box).2.1 - 10) (colorsGet d.cls)]) ∧
    (∀ label : String, colors.lookup label = none → colorsGet label = (0, 255, 0)) ∧
    colorsGet "OK" = (0, 255, 0) ∧
    displayText ⟨(0, 0, 0, 0), "PEDRA", 81 / 100, 7⟩ = "PEDRA: 0.81" := by
  refine ⟨?_, ?_, fun w h d => rfl, ?_, by decide, ?_⟩
  · intro w h saved l
    induction l generalizing saved with
    | nil => simp [processDets]
    | cons d ds ih =>
      show ((processOne w h saved d).2 ++
        (processDets w h (processOne w h saved d).1 ds).2).filter _ = _
      rw [List.filter_append, ih]
      have hann : (annEvents w h d).filter (fun e => !(isSnap e)) = annEvents w h d := by
        simp [annEvents, isSnap]
      have hone : (processOne w h saved d).2.filter (fun e => !(isSnap e)) =
          annEvents w h d := by
        unfold processOne
        split
        · rw [List.filter_append, hann]
          simp [isSnap]
        · exact hann
      rw [hone]
      simp
  · intro w h saved d
    unfold processOne
    split
    case isTrue hc => rfl
    case isFalse hc => simp
  · intro label hnone
    simp [colorsGet, hnone]
  · have hf : fmt2 ((81 : ℚ) / 100) = "0.81" := by
      simp only [fmt2]
      norm_num
      decide
    show "PEDRA" ++ ": " ++ fmt2 ((81 : ℚ) / 100) = "PEDRA: 0.81"
    rw [hf]
    rfl

theorem C9_annotation_witness :
    colorsGet "BATATA" = (0, 255, 0) :=
  C9_annotation.2.2.2.1 "BATATA" (by decide)

/-- C6: when frame acquisition reports failure for a run of consecutive
ticks, those ticks contribute no model.track invocation, no registry
mutation and no events, and the session continues on the remaining
ticks exactly as it would have from the same registry state. -/
theorem C6_read_failures (failTicks : List Tick) :
    ∀ (saved : Finset ℤ) (rest : List Tick), (∀ t ∈ failTicks, t.ret = false) →
      runSession saved (failTicks ++ rest) =
        ((runSession saved rest).1,
          failTicks.map (fun _ => ([] : List Ev)) ++ (runSession saved rest).2.1,
          (runSession saved rest).2.2) := by
  induction failTicks with
  | nil => intro saved rest _; simp
  | cons t ts ih =>
    intro saved rest h
    rw [List.cons_append]
    simp only [runSession]
    rw [stepTick_ret_false saved t (h t (List.mem_cons_self t ts))]
    simp only [Bool.false_eq_true, if_false]
    rw [ih saved rest (fun t2 h2 => h t2 (List.mem_cons_of_mem t h2))]
    simp

theorem C6_read_failures_witness :
    runSession ∅ ([⟨false, 1980, 1080, none, RaisePoint.noRaise, false⟩,
        ⟨false, 1980, 1080, none, RaisePoint.noRaise, true⟩] ++
      [⟨true, 1980, 1080, some [], RaisePoint.noRaise, false⟩]) =
      ((runSession ∅ [⟨true, 1980, 1080, some [], RaisePoint.noRaise, false⟩]).1,
        ([⟨false, 1980, 1080, none, RaisePoint.noRaise, false⟩,
          ⟨false, 1980, 1080, none, RaisePoint.noRaise, true⟩] : List Tick).map
            (fun _ => ([] : List Ev)) ++
          (runSession ∅ [⟨true, 1980, 1080, some [], RaisePoint.noRaise, false⟩]).2.1,
        (runSession ∅ [⟨true, 1980, 1080, some [], RaisePoint.noRaise, false⟩]).2.2) :=
  C6_read_failures _ ∅ _ (by decide)

/-- C7 counterexample: an iteration whose frame read fails skips the
stop-key poll entirely: with the stop key pressed during a failed-read
iteration the loop does not exit, and a following iteration still runs,
so the stop check does not happen at the end of every iteration. -/
theorem C7_counterexample :
    (stepTick ∅ ⟨false, 1980, 1080, none, RaisePoint.noRaise, true⟩).stop = false ∧
    (runSession ∅ [⟨false, 1980, 1080, none, RaisePoint.noRaise, true⟩,
      ⟨true, 1980, 1080, none, RaisePoint.noRaise, false⟩]).2.1.length = 2 := by
  exact ⟨by decide, by decide⟩

/-- C7 (amended): the stop-key poll happens at the end of exactly those
iterations that complete successfully (read succeeded and nothing
raised); such an iteration with the key pressed ends the loop at once,
so cancellation latency is bounded by one iteration while iterations
complete successfully; iterations with a failed read or a raised
exception skip the poll. -/
theorem C7_stop_poll :
    (∀ (saved : Finset ℤ) (t : Tick), t.ret = true → t.rp = RaisePoint.noRaise →
      (stepTick saved t).stop = t.stopKey) ∧
    (∀ (saved : Finset ℤ) (t : Tick), t.ret = false ∨ t.rp ≠ RaisePoint.noRaise →
      (stepTick saved t).stop = false) ∧
    (∀ (saved : Finset ℤ) (t : Tick) (ts : List Tick), t.ret = true →
      t.rp = RaisePoint.noRaise → t.stopKey = true →
      runSession saved (t :: ts) =
        ((stepTick saved t).saved, [(stepTick saved t).events], (stepTick saved t).detCalls)) := by
  refine ⟨fun saved t h1 h2 => ?_, fun saved t h => ?_, fun saved t ts h1 h2 h3 => ?_⟩
  · rw [stepTick_noRaise saved t h2 h1]
  · rcases h with h | h
    · rw [stepTick_ret_false saved t h]
    · cases hr : t.ret
      · rw [stepTick_ret_false saved t hr]
      · cases hrp : t.rp
        case noRaise => exact absurd hrp h
        case beforeDets => simp [stepTick, hrp]
        case atDet i => simp [stepTick, hrp, hr]
        case atShow => simp [stepTick, hrp, hr]
  · have h4 : (stepTick saved t).stop = true := by
      rw [stepTick_noRaise saved t h2 h1]
      exact h3
    simp only [runSession, h4, if_true]

/-- C4 counterexample: an iteration that raises during cv2.imshow, after
a flagged detection was processed, has already invoked the snapshot sink
and inserted the id into the registry; the failed iteration is therefore
not equivalent to one that produced no detections. -/
theorem C4_counterexample :
    (stepTick ∅ ⟨true, 1980, 1080, some [⟨(0, 0, 0, 0), "PEDRA", 1, 1⟩],
      RaisePoint.atShow, false⟩).saved = {1} ∧
    Ev.snapshot 1 ∈ (stepTick ∅ ⟨true, 1980, 1080, some [⟨(0, 0, 0, 0), "PEDRA", 1, 1⟩],
      RaisePoint.atShow, false⟩).events := by
  exact ⟨by decide, by decide⟩

/-- C4 (amended): no exception escapes the loop body: a raising
iteration never stops the loop, and the session continues into the
remaining ticks from the registry the failed iteration left behind; the
part of the iteration after the raise point, including the stop-key
poll, is skipped, while registry insertions and snapshot invocations
performed before the raise persist: a raise during drawing of detection
i acts as the successful processing of the first i detections, a raise
at display time as the successful processing of all detections, and a
raise before the model ran leaves no effect at all. -/
theorem C4_exception_policy :
    (∀ (saved : Finset ℤ) (t : Tick), t.rp ≠ RaisePoint.noRaise →
      (stepTick saved t).stop = false) ∧
    (∀ (saved : Finset ℤ) (t : Tick) (ts : List Tick), t.rp ≠ RaisePoint.noRaise →
      runSession saved (t :: ts) =
        ((runSession (stepTick saved t).saved ts).1,
          (stepTick saved t).events :: (runSession (stepTick saved t).saved ts).2.1,
          (stepTick saved t).detCalls + (runSession (stepTick saved t).saved ts).2.2)) ∧
    (∀ (saved : Finset ℤ) (t : Tick) (i : ℕ), t.ret = true → t.rp = RaisePoint.atDet i →
      stepTick saved t = stepTick saved
        ⟨true, t.w, t.h, some ((t.dets.getD []).take i), RaisePoint.noRaise, false⟩) ∧
    (∀ (saved : Finset ℤ) (t : Tick), t.ret = true → t.rp = RaisePoint.atShow →
      stepTick saved t = stepTick saved
        ⟨true, t.w, t.h, t.dets, RaisePoint.noRaise, false⟩) ∧
    (∀ (saved : Finset ℤ) (t : Tick), t.rp = RaisePoint.beforeDets →
      stepTick saved t = ⟨saved, [], 0, false⟩) := by
  have hstop : ∀ (saved : Finset ℤ) (t : Tick), t.rp ≠ RaisePoint.noRaise →
      (stepTick saved t).stop = false := by
    intro saved t h
    cases hr : t.ret
    · rw [stepTick_ret_false saved t hr]
    · cases hrp : t.rp
      case noRaise => exact absurd hrp h
      case beforeDets => simp [stepTick, hrp]
      case atDet i => simp [stepTick, hrp, hr]
      case atShow => simp [stepTick, hrp, hr]
  refine ⟨hstop, fun saved t ts h => ?_, fun saved t i h1 h2 => ?_, fun saved t h1 h2 => ?_,
    fun saved t h => ?_⟩
  · simp only [runSession, hstop saved t h, Bool.false_eq_true, if_false]
  · have hL : stepTick saved t = ⟨(processDets t.w t.h saved ((t.dets.getD []).take i)).1,
        (processDets t.w t.h saved ((t.dets.getD []).take i)).2, 1, false⟩ := by
      simp [stepTick, h1, h2]
    rw [hL, stepTick_noRaise saved _ rfl rfl]
    rfl
  · have hL : stepTick saved t = ⟨(processDets t.w t.h saved (t.dets.getD [])).1,
        (processDets t.w t.h saved (t.dets.getD [])).2, 1, false⟩ := by
      simp [stepTick, h1, h2]
    rw [hL, stepTick_noRaise saved _ rfl rfl]
  · simp [stepTick, h]

theorem C4_exception_policy_witness :
    stepTick ∅ ⟨true, 640, 640, some [⟨(0, 0, 0, 0), "PEDRA", 1, 2⟩],
        RaisePoint.atDet 0, true⟩ =
      stepTick ∅ ⟨true, 640, 640, some [], RaisePoint.noRaise, false⟩ :=
  C4_exception_policy.2.2.1 ∅
    ⟨true, 640, 640, some [⟨(0, 0, 0, 0), "PEDRA", 1, 2⟩], RaisePoint.atDet 0, true⟩ 0 rfl rfl

theorem C7_stop_poll_witness :
    (stepTick ∅ ⟨true, 640, 640, none, RaisePoint.noRaise, true⟩).stop = true ∧
    runSession ∅ [⟨true, 640, 640, none, RaisePoint.noRaise, true⟩] =
      ((stepTick ∅ ⟨true, 640, 640, none, RaisePoint.noRaise, true⟩).saved,
        [(stepTick ∅ ⟨true, 640, 640, none, RaisePoint.noRaise, true⟩).events],
        (stepTick ∅ ⟨true, 640, 640, none, RaisePoint.noRaise, true⟩).detCalls) :=
  ⟨C7_stop_poll.1 ∅ _ rfl rfl, C7_stop_poll.2.2 ∅ _ [] rfl rfl rfl⟩

/-- The scenario of the specification: track 7 appears as PEDRA in two
consecutive frames, track 12 first appears as OK and is later
reclassified BATATA-COM-PEDRA. -/
def demoTicks : List Tick :=
  [⟨true, 1980, 1080, some [⟨(0, 0, 10, 10), "PEDRA", 81 / 100, 7⟩],
    RaisePoint.noRaise, false⟩,
   ⟨true, 1980, 1080, some [⟨(0, 0, 10, 10), "PEDRA", 85 / 100, 7⟩],
    RaisePoint.noRaise, false⟩,
   ⟨true, 1980, 1080, some [⟨(0, 0, 10, 10), "OK", 9 / 10, 12⟩],
    RaisePoint.noRaise, false⟩,
   ⟨true, 1980, 1080, some [⟨(0, 0, 10, 10), "BATATA-COM-PEDRA", 9 / 10, 12⟩],
    RaisePoint.noRaise, false⟩]

/-- C1: per track id the snapshot sink is invoked at most once per
session (a session starts with an empty registry), the registry grows
monotonically both per iteration and across a session (ids are never
removed), and in a session without raises or stop requests the snapshot
for a track id happens exactly in the first frame in which that id
appears with a flagged class, and never again afterwards. -/
theorem C1_at_most_once :
    (∀ (saved : Finset ℤ) (t : Tick), saved ⊆ (stepTick saved t).saved) ∧
    (∀ (saved : Finset ℤ) (ts : List Tick), saved ⊆ (runSession saved ts).1) ∧
    (∀ (ts : List Tick) (tid : ℤ), snapsFor tid (runSession ∅ ts).2.1 ≤ 1) ∧
    (∀ (ts : List Tick) (tid : ℤ),
      (∀ t ∈ ts, t.rp = RaisePoint.noRaise ∧ t.stopKey = false) →
        ∀ i, i < ts.length →
          (Ev.snapshot tid ∈ (runSession ∅ ts).2.1.getD i [] ↔
            (flaggedInTick (ts.getD i defaultTick) tid ∧
              ∀ j, j < i → ¬ flaggedInTick (ts.getD j defaultTick) tid))) := by
  refine ⟨stepTick_saved_mono, fun saved ts => runSession_saved_mono ts saved,
    fun ts tid => (snapsFor_runSession ts ∅ tid).2, fun ts tid hall i hi => ?_⟩
  have h5 := (runSession_first_flag ts ∅ tid hall).2 i hi
  simpa using h5

theorem C1_at_most_once_witness :
    Ev.snapshot 12 ∈ (runSession ∅ demoTicks).2.1.getD 3 [] :=
  (C1_at_most_once.2.2.2 demoTicks 12 (by decide) 3 (by decide)).mpr (by decide)
